import Mathlib

/-!
Shallow embedding of the repository source file
src/updater/icon_converter.py (class IconConverter).

Files are modelled pre-split into their pathlib stem and suffix: the
Python code only ever inspects Path.stem, Path.suffix and the full
name, which is stem ++ suffix for well-formed extensions.  Each of the
output directories png, jpg, ico of an icon folder is modelled as a
(possibly empty) list of files; a missing directory behaves like an
empty one, which matches the guarded dir_path.exists() use in
_delete_converted_files.

External collaborators (Pillow, cairosvg, xml.etree) are modelled at
their interface, through the World structure:
* World.parse stands for xml.etree.ElementTree.parse followed by
  reading the width/height attributes of the root element
  (none models a parse exception);
* renderedPng stands for the cairosvg rasterizer and World.renderOk
  for its success;
* encodedVariant stands for one Pillow resize+encode, and
  World.failAt injects an exception into the k-th save of one
  _create_variants run (none means every save succeeds).

The only filesystem operation that process_icon_folder leaves
unguarded by any try/except is the ledger rewrite _save_converted_list
(and the ledger is also the only file written outside the icon
folder).  World.ledgerOk = false makes that write raise; the raise is
modelled by Except.error carrying the on-disk state at the time of
the raise, since the filesystem survives the crash.
-/

/-- One regular file: pathlib stem, pathlib suffix, and textual content. -/
structure File where
  stem : String
  ext : String
  content : String
deriving DecidableEq, Repr

/-- One icon folder: its name (the ledger key), the regular files at its
root, and the contents of its png, jpg and ico output directories. -/
structure Folder where
  name : String
  rootFiles : List File
  pngFiles : List File
  jpgFiles : List File
  icoFiles : List File
deriving DecidableEq, Repr

/-- Two files denote the same path (same stem and same suffix). -/
def sameKey (g f : File) : Bool :=
  g.stem == f.stem && g.ext == f.ext

/-- Writing a file: any file at the same path is replaced. -/
def putFile (files : List File) (f : File) : List File :=
  files.filter (fun g => !sameKey g f) ++ [f]

/-- Deleting a file (Path.unlink). -/
def removeKey (files : List File) (f : File) : List File :=
  files.filter (fun g => !sameKey g f)

/-- Path.exists for a file inside one directory listing. -/
def fileOnDisk (files : List File) (f : File) : Bool :=
  files.any (fun g => sameKey g f)

/-- The full file name, Path.name. -/
def nameOf (f : File) : String :=
  f.stem ++ f.ext

/-- Python str.lower(), applied character-wise (the suffixes the code
lowercases are pure ASCII, where Char.toLower agrees with Python). -/
def lowerStr (s : String) : String :=
  ⟨s.data.map Char.toLower⟩

/-- The result of a Python loop `for file in folder: if file.suffix.lower()
== suf: var = file` over a directory listing: the last match wins.  Both
scans of process_icon_folder (glob("*") with is_file, and iterdir with
is_file) have this shape. -/
def lastWithExt (suf : String) (files : List File) : Option File :=
  files.foldl (fun acc f => if lowerStr f.ext == suf then some f else acc) none

/-- fnmatch of a file name against the pattern base_name ++ "_*." ++ fmt
used by _delete_converted_files: the star matches any (possibly empty)
run of characters, so the pattern holds iff the name starts with the
base plus an underscore, ends with a dot plus the format, and is long
enough for the two anchors not to overlap (stated on character lists,
which Python compares the same way). -/
def matchesVariant (base fmt : String) (f : File) : Bool :=
  let p := (base ++ "_").data
  let s := ("." ++ fmt).data
  let n := (nameOf f).data
  decide (p.length + s.length ≤ n.length) && (n.take p.length == p)
    && (n.drop (n.length - s.length) == s)

/-- IconConverter.SIZES. -/
def SIZES : List Nat := [64, 128, 256, 512, 1024]

/-- IconConverter.OUTPUT_FORMATS (the conditional expression
`format_dir if format_dir != 'ico' else 'ico'` in
_delete_converted_files is the identity, so the glob pattern in each
directory uses the directory's own name as the extension). -/
def OUTPUT_FORMATS : List String := ["ico", "png", "jpg"]

/-- _delete_converted_files: in each of the ico, png and jpg
directories, unlink every file matching base ++ "_*." ++ that
directory's format.  Returns the new folder and the number of files
unlinked. -/
def deleteConvertedFiles (folder : Folder) (base : String) : Folder × Nat :=
  let keepP := folder.pngFiles.filter (fun f => !matchesVariant base ("png") f)
  let keepJ := folder.jpgFiles.filter (fun f => !matchesVariant base ("jpg") f)
  let keepI := folder.icoFiles.filter (fun f => !matchesVariant base ("ico") f)
  let removed := (folder.pngFiles.length - keepP.length)
    + (folder.jpgFiles.length - keepJ.length)
    + (folder.icoFiles.length - keepI.length)
  (⟨folder.name, folder.rootFiles, keepP, keepJ, keepI⟩, removed)

/-- str.rstrip("px"): drop every trailing character that is p or x. -/
def rstripPx (s : String) : String :=
  ⟨(s.data.reverse.dropWhile (fun c => c == 'p' || c == 'x')).reverse⟩

/-- Numeric value of a run of decimal digits. -/
def digitsVal (l : List Char) : Nat :=
  l.foldl (fun acc c => acc * 10 + (c.toNat - 48)) 0

/-- Unsigned decimal literal: digits, optionally followed by a dot and
more digits; at least one digit in total. -/
def parseUnsigned (l : List Char) : Option Rat :=
  let ip := l.takeWhile (fun c => c.isDigit)
  let rest := l.dropWhile (fun c => c.isDigit)
  match rest with
  | [] => if ip.isEmpty then none else some (digitsVal ip)
  | c :: fp =>
    if c == '.' && fp.all (fun d => d.isDigit) && !(ip.isEmpty && fp.isEmpty) then
      some ((digitsVal ip : Rat) + (digitsVal fp : Rat) / ((10 : Rat) ^ fp.length))
    else none

/-- The decimal-literal fragment of Python float(): optional sign, then
an unsigned decimal literal.  (The claims only exercise plain decimal
numerals; exponents, infinities, underscores and surrounding
whitespace never occur in them.) -/
def parseDec (s : String) : Option Rat :=
  match s.data with
  | [] => none
  | c :: rest =>
    if c == '-' then (parseUnsigned rest).map (fun r => -r)
    else if c == '+' then parseUnsigned rest
    else parseUnsigned (c :: rest)

/-- The external collaborators and failure injections of one run. -/
structure World where
  parse : String → Option (Option String × Option String)
  renderOk : Bool
  failAt : Option Nat
  ledgerOk : Bool

/-- Whether the k-th Pillow save of one _create_variants run raises. -/
def failsAt (w : World) (k : Nat) : Bool :=
  match w.failAt with
  | none => false
  | some j => j == k

/-- _check_svg_size: parse the SVG, require both width and height
attributes present and non-empty (Python truthiness), strip a trailing
px unit, parse as float, and require both values equal to 800. -/
def checkSvgSize (w : World) (content : String) : Bool :=
  match w.parse content with
  | none => false
  | some (wAttr, hAttr) =>
    match wAttr, hAttr with
    | some ws, some hs =>
      if ws == "" || hs == "" then false
      else
        match parseDec (rstripPx ws), parseDec (rstripPx hs) with
        | some wv, some hv => wv == 800 && hv == 800
        | _, _ => false
    | _, _ => false

/-- Content produced by the external rasterizer (cairosvg.svg2png) from
the given SVG text. -/
def renderedPng (svg : String) : String :=
  "rendered:" ++ svg

/-- Content produced by one external resize+encode (Pillow) of the
rasterized master, at the given size and output format. -/
def encodedVariant (fmt : String) (size : Nat) (raster : String) : String :=
  fmt ++ ":" ++ toString size ++ ":" ++ raster

/-- The size loop of _create_variants: for each size, save a png, a jpg
and an ico variant named base ++ "_" ++ size into the corresponding
directory.  k numbers the saves of this run; if save k raises
(failsAt), the loop stops with the incomplete state, mirroring the
exception jumping to the handler at the end of _create_variants.
Returns success, the folder, and the number of completed saves. -/
def encodeSizes (w : World) (base : String) (raster : String) :
    List Nat → Nat → Folder → Bool × Folder × Nat
  | [], _, folder => (true, folder, 0)
  | size :: rest, k, folder =>
    if failsAt w k then (false, folder, 0)
    else
      let fp : File := ⟨base ++ "_" ++ toString size, ".png", encodedVariant ("png") size raster⟩
      let folder1 : Folder := { folder with pngFiles := putFile folder.pngFiles fp }
      if failsAt w (k + 1) then (false, folder1, 1)
      else
        let fj : File := ⟨base ++ "_" ++ toString size, ".jpg", encodedVariant ("jpg") size raster⟩
        let folder2 : Folder := { folder1 with jpgFiles := putFile folder1.jpgFiles fj }
        if failsAt w (k + 2) then (false, folder2, 2)
        else
          let fi : File := ⟨base ++ "_" ++ toString size, ".ico", encodedVariant ("ico") size raster⟩
          let folder3 : Folder := { folder2 with icoFiles := putFile folder2.icoFiles fi }
          let rest' := encodeSizes w base raster rest (k + 3) folder3
          (rest'.1, rest'.2.1, rest'.2.2 + 3)

/-- _create_variants: only an .svg source is supported; render it once
to the temporary raster (underscore temp underscore, then the base,
with the png suffix) in the folder root,
run the size loop, and remove the temporary file after the loop.  On
an exception inside the loop, control jumps to the handler, so the
cleanup of the temporary file is skipped and it stays on disk.
Returns success, the folder, and the number of file operations. -/
def createVariants (w : World) (folder : Folder) (src : File) (base : String) :
    Bool × Folder × Nat :=
  if lowerStr src.ext == ".svg" then
    if w.renderOk then
      let temp : File := ⟨"_temp_" ++ base, ".png", renderedPng src.content⟩
      let folder1 : Folder := { folder with rootFiles := putFile folder.rootFiles temp }
      let enc := encodeSizes w base temp.content SIZES 0 folder1
      if enc.1 then
        (true, { enc.2.1 with rootFiles := removeKey enc.2.1.rootFiles temp }, enc.2.2 + 2)
      else (false, enc.2.1, enc.2.2 + 1)
    else (false, folder, 0)
  else (false, folder, 0)

/-- The mutable IconConverter state outside any one folder: the
in-memory converted_files set, the on-disk content of the .converted
ledger (one name per line), the number of ledger rewrites performed,
and the number of file create/overwrite/unlink operations performed
inside icon folders. -/
structure PState where
  conv : List String
  ledger : List String
  ledgerWrites : Nat
  fileOps : Nat
deriving DecidableEq, Repr

/-- Python set.add on the converted_files set. -/
def insertName (l : List String) (n : String) : List String :=
  if l.contains n then l else l ++ [n]

/-- Lexicographic code-point order on character lists, the order Python
sorted() uses on strings. -/
def lexLt : List Char → List Char → Bool
  | [], [] => false
  | [], _ :: _ => true
  | _ :: _, [] => false
  | c :: cs, d :: ds =>
    if c.toNat < d.toNat then true
    else if d.toNat < c.toNat then false
    else lexLt cs ds

/-- Lexicographic order on strings. -/
def strLt (a b : String) : Bool :=
  lexLt a.data b.data

/-- Stable insertion into an ascending list of strings. -/
def insertStr (a : String) : List String → List String
  | [] => [a]
  | b :: bs => if strLt b a then b :: insertStr a bs else a :: b :: bs

/-- sorted(...) over the converted_files set, as written by
_save_converted_list. -/
def sortStrings : List String → List String
  | [] => []
  | a :: as => insertStr a (sortStrings as)

/-- _save_converted_list: rewrite the whole ledger file, sorted.  The
write is not guarded by any try/except on its call path, so when it
fails the exception escapes process_icon_folder; the error value
carries the state at the raise. -/
def saveConvertedList (w : World) (st : PState) : Except PState PState :=
  if w.ledgerOk then
    Except.ok { st with ledger := sortStrings st.conv, ledgerWrites := st.ledgerWrites + 1 }
  else Except.error st

/-- _svg_to_xml output file: a copy of the SVG text under the same stem
with the .xml suffix. -/
def svgToXmlFile (sf : File) : File :=
  ⟨sf.stem, ".xml", sf.content⟩

/-- _xml_to_svg output file: a copy of the XML text under the same stem
with the .svg suffix. -/
def xmlToSvgFile (xf : File) : File :=
  ⟨xf.stem, ".svg", xf.content⟩

/-- Lines 295-320 of process_icon_folder: the .updatesvg branch.  It
runs only when both the marker and an .svg file were scanned.  It
deletes the previously converted variants for the svg stem, unlinks
the old svg and the marker, and then, if the scanned xml file still
exists, regenerates the svg from it; otherwise the whole call returns
False (modelled by the Except.error early return carrying the result
triple).  On the ok side it returns the folder, the state, and the
current svg_file variable. -/
def handleUpdSvg (st : PState) (folder : Folder)
    (updSvg svg0 xml0 : Option File) :
    Except (Bool × Folder × PState) (Folder × PState × Option File) :=
  match updSvg, svg0 with
  | some mu, some sf =>
    let base := sf.stem
    let del := deleteConvertedFiles folder base
    let folder1 := del.1
    let folder2 : Folder := { folder1 with rootFiles := removeKey folder1.rootFiles sf }
    let folder3 : Folder := { folder2 with rootFiles := removeKey folder2.rootFiles mu }
    let st1 : PState := { st with fileOps := st.fileOps + del.2 + 2 }
    match xml0 with
    | some xf =>
      if fileOnDisk folder3.rootFiles xf then
        let newSvg := xmlToSvgFile xf
        let folder4 : Folder := { folder3 with rootFiles := putFile folder3.rootFiles newSvg }
        Except.ok (folder4, { st1 with fileOps := st1.fileOps + 1 }, some newSvg)
      else Except.error (false, folder3, st1)
    | none => Except.error (false, folder3, st1)
  | _, _ => Except.ok (folder, st, svg0)

/-- Lines 323-348 of process_icon_folder: the .updatexml branch,
symmetric to handleUpdSvg.  It runs only when both the marker and an
.xml file were scanned; the svg_file variable it consults may have
been replaced by the .updatesvg branch. -/
def handleUpdXml (st : PState) (folder : Folder)
    (updXml xml0 svg1 : Option File) :
    Except (Bool × Folder × PState) (Folder × PState) :=
  match updXml, xml0 with
  | some mu, some xf =>
    let base := xf.stem
    let del := deleteConvertedFiles folder base
    let folder1 := del.1
    let folder2 : Folder := { folder1 with rootFiles := removeKey folder1.rootFiles xf }
    let folder3 : Folder := { folder2 with rootFiles := removeKey folder2.rootFiles mu }
    let st1 : PState := { st with fileOps := st.fileOps + del.2 + 2 }
    match svg1 with
    | some sf =>
      if fileOnDisk folder3.rootFiles sf then
        let newXml := svgToXmlFile sf
        let folder4 : Folder := { folder3 with rootFiles := putFile folder3.rootFiles newXml }
        Except.ok (folder4, { st1 with fileOps := st1.fileOps + 1 })
      else Except.error (false, folder3, st1)
    | none => Except.error (false, folder3, st1)
  | _, _ => Except.ok (folder, st)

/-- Lines 367-410 of process_icon_folder: normal processing of a newly
discovered icon.  Already-ledgered folders are skipped with success
and no state change; otherwise the sources are scanned, the missing
half of the asset pair is synthesized, the size gate runs, variants
are generated, and only then the folder is ledgered and the ledger
rewritten (whose failure raises). -/
def normalTail (w : World) (st : PState) (folder : Folder) :
    Except (Folder × PState) (Bool × Folder × PState) :=
  if st.conv.contains folder.name then Except.ok (true, folder, st)
  else
    let svg0 := lastWithExt (".svg") folder.rootFiles
    let xml0 := lastWithExt (".xml") folder.rootFiles
    match svg0, xml0 with
    | none, none => Except.ok (false, folder, st)
    | _, _ =>
      let sync :
          Folder × PState × Option File :=
        match svg0, xml0 with
        | some sf, none =>
          ({ folder with rootFiles := putFile folder.rootFiles (svgToXmlFile sf) },
            { st with fileOps := st.fileOps + 1 }, some sf)
        | none, some xf =>
          ({ folder with rootFiles := putFile folder.rootFiles (xmlToSvgFile xf) },
            { st with fileOps := st.fileOps + 1 }, some (xmlToSvgFile xf))
        | _, _ => (folder, st, svg0)
      let folder1 := sync.1
      let st1 := sync.2.1
      match sync.2.2 with
      | some sf =>
        if fileOnDisk folder1.rootFiles sf then
          if checkSvgSize w sf.content then
            let cv := createVariants w folder1 sf sf.stem
            let st2 : PState := { st1 with fileOps := st1.fileOps + cv.2.2 }
            if cv.1 then
              let st3 : PState := { st2 with conv := insertName st2.conv folder.name }
              match saveConvertedList w st3 with
              | Except.ok st4 => Except.ok (true, cv.2.1, st4)
              | Except.error stE => Except.error (cv.2.1, stE)
            else Except.ok (false, cv.2.1, st2)
          else Except.ok (false, folder1, st1)
        else Except.ok (false, folder1, st1)
      | none => Except.ok (false, folder1, st1)

/-- Lines 351-364 of process_icon_folder: regeneration after the
marker branches.  When the svg_file variable names an existing file,
the size gate runs and the variants are regenerated without any
ledger update; otherwise control falls through into normal
processing (which, the folder being ledgered, skips with success). -/
def regenStep (w : World) (st : PState) (folder : Folder) (svg1 : Option File) :
    Except (Folder × PState) (Bool × Folder × PState) :=
  match svg1 with
  | some sf =>
    if fileOnDisk folder.rootFiles sf then
      if checkSvgSize w sf.content then
        let cv := createVariants w folder sf sf.stem
        Except.ok (cv.1, cv.2.1, { st with fileOps := st.fileOps + cv.2.2 })
      else Except.ok (false, folder, st)
    else normalTail w st folder
  | none => normalTail w st folder

/-- process_icon_folder.  Scan for the update markers; with a marker
present, skip unledgered folders with success, otherwise run the two
marker branches followed by regeneration; with no marker, run normal
processing. -/
def processIconFolder (w : World) (st : PState) (folder : Folder) :
    Except (Folder × PState) (Bool × Folder × PState) :=
  let updSvg := lastWithExt (".updatesvg") folder.rootFiles
  let updXml := lastWithExt (".updatexml") folder.rootFiles
  if updSvg.isSome || updXml.isSome then
    if st.conv.contains folder.name then
      let svg0 := lastWithExt (".svg") folder.rootFiles
      let xml0 := lastWithExt (".xml") folder.rootFiles
      match handleUpdSvg st folder updSvg svg0 xml0 with
      | Except.error r => Except.ok r
      | Except.ok (folder1, st1, svg1) =>
        match handleUpdXml st1 folder1 updXml xml0 svg1 with
        | Except.error r => Except.ok r
        | Except.ok (folder2, st2) => regenStep w st2 folder2 svg1
    else Except.ok (true, folder, st)
  else normalTail w st folder

/-- Modelled from the spec, section 4.3: the sequential-independent
marker handling the spec recommends, in which the .updatexml branch is
still attempted after a failure of the .updatesvg branch (each branch
validating independently), the folder failing when either branch
failed.  This is the comparison point for the refinement statement of
the both-markers claim; everything it calls is the code's own
embedding. -/
def processIconFolderIndep (w : World) (st : PState) (folder : Folder) :
    Except (Folder × PState) (Bool × Folder × PState) :=
  let updSvg := lastWithExt (".updatesvg") folder.rootFiles
  let updXml := lastWithExt (".updatexml") folder.rootFiles
  if updSvg.isSome || updXml.isSome then
    if st.conv.contains folder.name then
      let svg0 := lastWithExt (".svg") folder.rootFiles
      let xml0 := lastWithExt (".xml") folder.rootFiles
      let stepA :
          Bool × Folder × PState × Option File :=
        match handleUpdSvg st folder updSvg svg0 xml0 with
        | Except.error (_, f1, s1) => (false, f1, s1, none)
        | Except.ok (f1, s1, sv1) => (true, f1, s1, sv1)
      let stepB :
          Bool × Folder × PState :=
        match handleUpdXml stepA.2.2.1 stepA.2.1 updXml xml0 stepA.2.2.2 with
        | Except.error (_, f2, s2) => (false, f2, s2)
        | Except.ok (f2, s2) => (true, f2, s2)
      if stepA.1 && stepB.1 then regenStep w stepB.2.2 stepB.2.1 stepA.2.2.2
      else Except.ok (false, stepB.2.1, stepB.2.2)
    else Except.ok (true, folder, st)
  else normalTail w st folder

/-- Stable insertion of a folder into a name-ascending list. -/
def insertFolder (f : Folder) : List Folder → List Folder
  | [] => [f]
  | g :: gs => if strLt g.name f.name then g :: insertFolder f gs else f :: g :: gs

/-- sorted(icon_folders): the run controller processes folders in
name order. -/
def sortFolders : List Folder → List Folder
  | [] => []
  | f :: fs => insertFolder f (sortFolders fs)

/-- The per-folder loop of IconConverter.run (lines 430-437): process
each folder, tallying successes and failures; an exception escaping
process_icon_folder is not caught anywhere inside run, so it aborts
the loop, the unprocessed folders keeping their state. -/
def runLoop (w : World) :
    List Folder → PState → Nat → Nat →
    Except (List Folder × PState) (Bool × List Folder × PState)
  | [], st, _succ, fail => Except.ok (fail == 0, [], st)
  | f :: rest, st, succ, fail =>
    match processIconFolder w st f with
    | Except.error (f1, st1) => Except.error (f1 :: rest, st1)
    | Except.ok (ok, f1, st1) =>
      match runLoop w rest st1 (if ok then succ + 1 else succ)
          (if ok then fail else fail + 1) with
      | Except.error (fs, stE) => Except.error (f1 :: fs, stE)
      | Except.ok (b, fs, stF) => Except.ok (b, f1 :: fs, stF)

/-- IconConverter.run on an already-discovered list of icon folders:
with no folders it returns False, otherwise it runs the loop over the
name-sorted folders and returns whether every folder succeeded
(failed == 0). -/
def runAll (w : World) (st : PState) (folders : List Folder) :
    Except (List Folder × PState) (Bool × List Folder × PState) :=
  if folders.isEmpty then Except.ok (false, folders, st)
  else runLoop w (sortFolders folders) st 0 0

/-- Whether a run outcome is an escaped exception. -/
def isErr {ε α : Type} : Except ε α → Bool
  | Except.error _ => true
  | Except.ok _ => false

/-- Lookup of a root file by stem and suffix, for stating results. -/
def findRoot (folder : Folder) (stem ext : String) : Option File :=
  folder.rootFiles.find? (fun g => g.stem == stem && g.ext == ext)

/-- A run in which every external collaborator succeeds and every
parsed SVG declares 800 x 800. -/
def wAll800 : World :=
  ⟨fun _ => some (some ("800"), some ("800")), true, none, true⟩

/-- As wAll800, but every parsed SVG declares 500 x 500. -/
def wAll500 : World :=
  ⟨fun _ => some (some ("500"), some ("500")), true, none, true⟩

/-- As wAll800, but the ledger file is unwritable. -/
def wLedgerDown : World :=
  ⟨fun _ => some (some ("800"), some ("800")), true, none, false⟩

/-- As wAll800, but the first Pillow save of a _create_variants run
raises. -/
def wFirstSaveFails : World :=
  ⟨fun _ => some (some ("800"), some ("800")), true, some 0, true⟩

/-- The on-disk folder state after one process_icon_folder call,
whether it returned normally or raised (the filesystem survives an
escaped exception). -/
def folderAfter : Except (Folder × PState) (Bool × Folder × PState) → Folder
  | Except.ok (_, f, _) => f
  | Except.error (f, _) => f

/-- The folder list of a run outcome: the processed folders, or, on a
crash, the crashed folder followed by the untouched remainder. -/
def runFolders : Except (List Folder × PState) (Bool × List Folder × PState) → List Folder
  | Except.error (fs, _) => fs
  | Except.ok (_, fs, _) => fs

/-- The folder state left by the .updatesvg branch, on either exit. -/
def folderAfterUpdSvg (r : Except (Bool × Folder × PState) (Folder × PState × Option File)) :
    Folder :=
  match r with
  | Except.error (_, f, _) => f
  | Except.ok (f, _, _) => f

/-- The folder state left by the .updatexml branch, on either exit. -/
def folderAfterUpdXml (r : Except (Bool × Folder × PState) (Folder × PState)) : Folder :=
  match r with
  | Except.error (_, f, _) => f
  | Except.ok (f, _) => f

@[simp] theorem lowerStrSvg : lowerStr (".svg") = (".svg") := rfl

@[simp] theorem lowerStrXml : lowerStr (".xml") = (".xml") := rfl

@[simp] theorem lowerStrUpdSvg : lowerStr (".updatesvg") = (".updatesvg") := rfl

@[simp] theorem lowerStrUpdXml : lowerStr (".updatexml") = (".updatexml") := rfl

@[simp] theorem lowerStrPng : lowerStr (".png") = (".png") := rfl

/-- The size loop never touches the folder root. -/
theorem encodeSizes_rootFiles (w : World) (base raster : String) :
    ∀ (sizes : List Nat) (k : Nat) (folder : Folder),
    (encodeSizes w base raster sizes k folder).2.1.rootFiles = folder.rootFiles := by
  intro sizes
  induction sizes with
  | nil => intro k folder; rfl
  | cons s rest ih =>
    intro k folder
    simp only [encodeSizes]
    split
    · rfl
    split
    · rfl
    split
    · rfl
    exact ih (k + 3) _

/-- With no injected save failure the size loop succeeds. -/
theorem encodeSizes_fst (w : World) (base raster : String) (hf : w.failAt = none) :
    ∀ (sizes : List Nat) (k : Nat) (folder : Folder),
    (encodeSizes w base raster sizes k folder).1 = true := by
  intro sizes
  induction sizes with
  | nil => intro k folder; rfl
  | cons s rest ih =>
    intro k folder
    simp only [encodeSizes, failsAt, hf]
    exact ih (k + 3) _

/-- Removing every file that shares a path with t does not change a
lookup whose suffix differs from t's suffix. -/
theorem find?_filter_keep (t : File) (s e : String) (he : (t.ext == e) = false) :
    ∀ l : List File,
    (l.filter (fun g => !sameKey g t)).find? (fun g => g.stem == s && g.ext == e) =
      l.find? (fun g => g.stem == s && g.ext == e) := by
  intro l
  induction l with
  | nil => rfl
  | cons a as ih =>
    by_cases hk : sameKey a t = true
    · have hae : (a.ext == t.ext) = true := by
        simp only [sameKey, Bool.and_eq_true] at hk
        exact hk.2
      have hext : a.ext = t.ext := eq_of_beq hae
      have hpred : (a.stem == s && a.ext == e) = false := by
        have hone : (a.ext == e) = false := by rw [hext]; exact he
        simp [hone]
      simp [List.filter_cons, hk, List.find?_cons, hpred, ih]
    · have hk2 : sameKey a t = false := by
        cases h2 : sameKey a t
        · rfl
        · exact absurd h2 hk
      by_cases hp : (a.stem == s && a.ext == e) = true
      · simp [List.filter_cons, hk2, List.find?_cons, hp]
      · have hp2 : (a.stem == s && a.ext == e) = false := by
          cases h2 : (a.stem == s && a.ext == e)
          · rfl
          · exact absurd h2 hp
        simp [List.filter_cons, hk2, List.find?_cons, hp2, ih]

/-- _create_variants only writes and removes png files (the temporary
raster and the png variants), so a root lookup with any other suffix
is unchanged by it, whatever the outcome. -/
theorem createVariants_findRoot (w : World) (folder : Folder) (src : File)
    (base s e : String) (he : (e == ".png") = false) :
    findRoot (createVariants w folder src base).2.1 s e = findRoot folder s e := by
  have hpe : (((⟨"_temp_" ++ base, ".png", renderedPng src.content⟩ : File)).ext == e) = false := by
    have : e ≠ ".png" := by
      intro hcontra
      rw [hcontra] at he
      simp at he
    simpa using fun hcontra => this hcontra.symm
  unfold createVariants
  split
  · split
    · simp only []
      split
      · unfold findRoot removeKey
        rw [encodeSizes_rootFiles]
        simp only [putFile]
        rw [List.filter_append, List.find?_append]
        have hself : sameKey (⟨"_temp_" ++ base, ".png", renderedPng src.content⟩ : File)
            (⟨"_temp_" ++ base, ".png", renderedPng src.content⟩ : File) = true := by
          simp [sameKey]
        simp only [List.filter_cons, List.filter_nil, hself, Bool.not_true, List.append_nil]
        rw [List.filter_filter]
        have hcong : (folder.rootFiles.filter fun g =>
            (!sameKey g ⟨"_temp_" ++ base, ".png", renderedPng src.content⟩) &&
              (!sameKey g ⟨"_temp_" ++ base, ".png", renderedPng src.content⟩)) =
            folder.rootFiles.filter fun g =>
              (!sameKey g ⟨"_temp_" ++ base, ".png", renderedPng src.content⟩) := by
          apply List.filter_congr
          intro a _
          cases sameKey a (⟨"_temp_" ++ base, ".png", renderedPng src.content⟩ : File) <;> rfl
        rw [hcong, find?_filter_keep _ _ _ hpe]
        simp
      · unfold findRoot
        rw [encodeSizes_rootFiles]
        simp only [putFile]
        rw [List.find?_append]
        have htemp : ((⟨"_temp_" ++ base, ".png", renderedPng src.content⟩ : File).stem == s &&
            (⟨"_temp_" ++ base, ".png", renderedPng src.content⟩ : File).ext == e) = false := by
          simp only [hpe, Bool.and_false]
        simp only [List.find?_cons, htemp, List.find?_nil, Option.or_none]
        exact find?_filter_keep _ _ _ hpe folder.rootFiles
    · rfl
  · rfl

/-- C6: for every folder whose name is already ledgered and which
contains no update marker, process_icon_folder returns success with
the folder and the whole converter state (including the ledger and
both operation counters) unchanged, so no filesystem write happens
and a second run starts from identical state and takes the same
skip path with the same success result. -/
theorem c6_ledgered_no_marker_skip (w : World) (st : PState) (folder : Folder)
    (hm : lastWithExt (".updatesvg") folder.rootFiles = none)
    (hx : lastWithExt (".updatexml") folder.rootFiles = none)
    (hc : folder.name ∈ st.conv) :
    processIconFolder w st folder = Except.ok (true, folder, st) := by
  simp [processIconFolder, hm, hx, normalTail, hc]

/-- C6 witness: the skip theorem applied to a concrete ledgered,
marker-free folder. -/
theorem c6_witness :
    processIconFolder wAll800 ⟨["c6"], ["c6"], 0, 0⟩
        ⟨"c6", [⟨"icon", ".svg", "S"⟩], [], [], []⟩ =
      Except.ok (true, ⟨"c6", [⟨"icon", ".svg", "S"⟩], [], [], []⟩, ⟨["c6"], ["c6"], 0, 0⟩) :=
  c6_ledgered_no_marker_skip wAll800 ⟨["c6"], ["c6"], 0, 0⟩
    ⟨"c6", [⟨"icon", ".svg", "S"⟩], [], [], []⟩ (by rfl) (by rfl) (by decide)

/-- C1 counterexample: a ledgered folder carrying a .updatesvg marker
but no vector file (here even with an XML mirror available) is not
failed: the marker branch is silently skipped because its guard also
requires an svg file, control falls through to normal processing, and
the folder being ledgered is reported successful with nothing touched,
the marker left in place. -/
theorem c1_counterexample :
    processIconFolder wAll800 ⟨["icat"], ["icat"], 0, 0⟩
        ⟨"icat", [⟨"u", ".updatesvg", ""⟩, ⟨"icat", ".xml", "mirror"⟩], [], [], []⟩ =
      Except.ok (true,
        ⟨"icat", [⟨"u", ".updatesvg", ""⟩, ⟨"icat", ".xml", "mirror"⟩], [], [], []⟩,
        ⟨["icat"], ["icat"], 0, 0⟩) := by
  rfl

/-- C1 amended: for every ledgered folder containing a .updatesvg
marker but no vector file, process_icon_folder does not fail the
folder; it performs no filesystem operation, leaves the marker in
place, and returns success via the already-converted skip. -/
theorem c1_amended (w : World) (st : PState) (a bx mc cx nm : String)
    (png0 jpg0 ico0 : List File) (hc : nm ∈ st.conv) :
    processIconFolder w st ⟨nm, [⟨a, ".updatesvg", mc⟩, ⟨bx, ".xml", cx⟩], png0, jpg0, ico0⟩ =
      Except.ok (true, ⟨nm, [⟨a, ".updatesvg", mc⟩, ⟨bx, ".xml", cx⟩], png0, jpg0, ico0⟩, st) := by
  simp [processIconFolder, lastWithExt, handleUpdSvg, handleUpdXml, regenStep, normalTail, hc]

/-- C1 witness: the amended theorem applied to a concrete ledgered
folder holding only the marker and the XML mirror. -/
theorem c1_witness :
    processIconFolder wAll800 ⟨["w1"], ["w1"], 2, 3⟩
        ⟨"w1", [⟨"m", ".updatesvg", ""⟩, ⟨"w1", ".xml", "body"⟩], [], [], []⟩ =
      Except.ok (true, ⟨"w1", [⟨"m", ".updatesvg", ""⟩, ⟨"w1", ".xml", "body"⟩], [], [], []⟩,
        ⟨["w1"], ["w1"], 2, 3⟩) :=
  c1_amended wAll800 ⟨["w1"], ["w1"], 2, 3⟩ ("m") ("w1") ("") ("body") ("w1") [] [] [] (by decide)

/-- C4 counterexample: a ledgered, marker-free folder whose vector
master declares 500 x 500 yields a SUCCESS result (the ledger check
short-circuits before the size gate), not the failed result the claim
requires of every folder with a non-800 master. -/
theorem c4_counterexample :
    processIconFolder wAll500 ⟨["c4"], ["c4"], 0, 0⟩
        ⟨"c4", [⟨"icon", ".svg", "S"⟩], [], [], []⟩ =
      Except.ok (true, ⟨"c4", [⟨"icon", ".svg", "S"⟩], [], [], []⟩, ⟨["c4"], ["c4"], 0, 0⟩) := by
  rfl

/-- C4 amended: for every folder that actually reaches the conversion
stage (not ledgered, no marker), a vector master failing the 800 x 800
size gate produces no variant file whatsoever: the png, jpg and ico
directories are returned verbatim, the only write is the XML mirror
synthesized before the gate, and the folder is reported failed. -/
theorem c4_amended (w : World) (st : PState) (nm b cs : String)
    (png0 jpg0 ico0 : List File) (hc : nm ∉ st.conv) (hsz : checkSvgSize w cs = false) :
    processIconFolder w st ⟨nm, [⟨b, ".svg", cs⟩], png0, jpg0, ico0⟩ =
      Except.ok (false, ⟨nm, [⟨b, ".svg", cs⟩, ⟨b, ".xml", cs⟩], png0, jpg0, ico0⟩,
        { st with fileOps := st.fileOps + 1 }) := by
  simp [processIconFolder, lastWithExt, normalTail, hc, hsz, putFile, svgToXmlFile, sameKey,
    fileOnDisk]

/-- C4 witness: the amended theorem applied to a concrete unledgered
folder whose master declares 500 x 500. -/
theorem c4_witness :
    processIconFolder wAll500 ⟨[], [], 0, 0⟩ ⟨"c4w", [⟨"icon", ".svg", "S"⟩], [], [], []⟩ =
      Except.ok (false, ⟨"c4w", [⟨"icon", ".svg", "S"⟩, ⟨"icon", ".xml", "S"⟩], [], [], []⟩,
        ⟨[], [], 0, 1⟩) :=
  c4_amended wAll500 ⟨[], [], 0, 0⟩ ("c4w") ("icon") ("S") [] [] [] (by decide) (by rfl)

/-- C5 counterexample: a ledgered, marker-free folder containing only a
vector file is skipped with success and remains unchanged, so no XML
file with matching base name exists after the run, contrary to the
claimed sync invariant for every folder. -/
theorem c5_counterexample :
    processIconFolder wAll800 ⟨["c5"], ["c5"], 0, 0⟩
        ⟨"c5", [⟨"icon", ".svg", "S"⟩], [], [], []⟩ =
      Except.ok (true, ⟨"c5", [⟨"icon", ".svg", "S"⟩], [], [], []⟩, ⟨["c5"], ["c5"], 0, 0⟩) ∧
    findRoot ⟨"c5", [⟨"icon", ".svg", "S"⟩], [], [], []⟩ "icon" (".xml") = none :=
  ⟨rfl, rfl⟩

/-- C5 amended: for every folder that is not skipped (not ledgered;
single source file, hence no marker), the sync invariant holds
whatever the later outcome: after processing a folder containing only
a vector file, an XML file with the same base name and identical
content is on disk (and the vector file is still there); symmetrically
for a folder containing only an XML file. -/
theorem c5_amended (w : World) (st : PState) (nm b cs cx : String)
    (png0 jpg0 ico0 : List File) (hc : nm ∉ st.conv) :
    (findRoot (folderAfter (processIconFolder w st ⟨nm, [⟨b, ".svg", cs⟩], png0, jpg0, ico0⟩))
        b (".xml") = some ⟨b, ".xml", cs⟩ ∧
      findRoot (folderAfter (processIconFolder w st ⟨nm, [⟨b, ".svg", cs⟩], png0, jpg0, ico0⟩))
        b (".svg") = some ⟨b, ".svg", cs⟩) ∧
    (findRoot (folderAfter (processIconFolder w st ⟨nm, [⟨b, ".xml", cx⟩], png0, jpg0, ico0⟩))
        b (".svg") = some ⟨b, ".svg", cx⟩ ∧
      findRoot (folderAfter (processIconFolder w st ⟨nm, [⟨b, ".xml", cx⟩], png0, jpg0, ico0⟩))
        b (".xml") = some ⟨b, ".xml", cx⟩) := by
  have hbaseS : ∀ e y, (e == ".png") = false →
      List.find? (fun g => g.stem == b && g.ext == e)
        [(⟨b, ".svg", cs⟩ : File), ⟨b, ".xml", cs⟩] = y →
      findRoot (folderAfter (processIconFolder w st ⟨nm, [⟨b, ".svg", cs⟩], png0, jpg0, ico0⟩))
        b e = y := by
    intro e y he hy
    simp only [processIconFolder, normalTail, lastWithExt, List.foldl]
    simp [hc, putFile, svgToXmlFile, sameKey, fileOnDisk, saveConvertedList]
    split
    · split
      · split
        · simp only [folderAfter]
          rw [createVariants_findRoot _ _ _ _ _ _ he]
          simpa [findRoot] using hy
        · simp only [folderAfter]
          rw [createVariants_findRoot _ _ _ _ _ _ he]
          simpa [findRoot] using hy
      · simp only [folderAfter]
        rw [createVariants_findRoot _ _ _ _ _ _ he]
        simpa [findRoot] using hy
    · simp only [folderAfter]
      simpa [findRoot] using hy
  have hbaseX : ∀ e y, (e == ".png") = false →
      List.find? (fun g => g.stem == b && g.ext == e)
        [(⟨b, ".xml", cx⟩ : File), ⟨b, ".svg", cx⟩] = y →
      findRoot (folderAfter (processIconFolder w st ⟨nm, [⟨b, ".xml", cx⟩], png0, jpg0, ico0⟩))
        b e = y := by
    intro e y he hy
    simp only [processIconFolder, normalTail, lastWithExt, List.foldl]
    simp [hc, putFile, xmlToSvgFile, sameKey, fileOnDisk, saveConvertedList]
    split
    · split
      · split
        · simp only [folderAfter]
          rw [createVariants_findRoot _ _ _ _ _ _ he]
          simpa [findRoot] using hy
        · simp only [folderAfter]
          rw [createVariants_findRoot _ _ _ _ _ _ he]
          simpa [findRoot] using hy
      · simp only [folderAfter]
        rw [createVariants_findRoot _ _ _ _ _ _ he]
        simpa [findRoot] using hy
    · simp only [folderAfter]
      simpa [findRoot] using hy
  refine ⟨⟨?_, ?_⟩, ?_, ?_⟩
  · refine hbaseS (".xml") _ (by rfl) ?_
    simp [sameKey]
  · refine hbaseS (".svg") _ (by rfl) ?_
    simp [sameKey]
  · refine hbaseX (".svg") _ (by rfl) ?_
    simp [sameKey]
  · refine hbaseX (".xml") _ (by rfl) ?_
    simp [sameKey]

/-- C5 witness: the amended sync theorem applied to one concrete
unledgered svg-only folder and one concrete xml-only folder. -/
theorem c5_witness :
    (findRoot (folderAfter (processIconFolder wAll800 ⟨[], [], 0, 0⟩
        ⟨"c5w", [⟨"icon", ".svg", "A"⟩], [], [], []⟩)) "icon" (".xml") =
          some ⟨"icon", ".xml", "A"⟩ ∧
      findRoot (folderAfter (processIconFolder wAll800 ⟨[], [], 0, 0⟩
        ⟨"c5w", [⟨"icon", ".svg", "A"⟩], [], [], []⟩)) "icon" (".svg") =
          some ⟨"icon", ".svg", "A"⟩) ∧
    (findRoot (folderAfter (processIconFolder wAll800 ⟨[], [], 0, 0⟩
        ⟨"c5w", [⟨"icon", ".xml", "B"⟩], [], [], []⟩)) "icon" (".svg") =
          some ⟨"icon", ".svg", "B"⟩ ∧
      findRoot (folderAfter (processIconFolder wAll800 ⟨[], [], 0, 0⟩
        ⟨"c5w", [⟨"icon", ".xml", "B"⟩], [], [], []⟩)) "icon" (".xml") =
          some ⟨"icon", ".xml", "B"⟩) :=
  c5_amended wAll800 ⟨[], [], 0, 0⟩ ("c5w") ("icon") ("A") ("B") [] [] [] (by decide)

/-- C9 counterexample: when the first per-variant save raises, the
exception jumps over the cleanup at the end of _create_variants, so
the generator returns failure with the intermediate raster
_temp_foo.png still on disk, contrary to the claim that it is removed
regardless of per-variant outcome. -/
theorem c9_counterexample :
    createVariants wFirstSaveFails ⟨"c9", [⟨"foo", ".svg", "S"⟩], [], [], []⟩
        ⟨"foo", ".svg", "S"⟩ "foo" =
      (false, ⟨"c9", [⟨"foo", ".svg", "S"⟩, ⟨"_temp_foo", ".png", renderedPng ("S")⟩],
        [], [], []⟩, 1) := by
  rfl

/-- C9 amended: the intermediate raster is removed before
_create_variants returns when every per-variant encode succeeds (on an
encode exception it is left behind): with rendering succeeding and no
save failing, the generator returns success and no file at the
temporary raster's path remains in the folder root. -/
theorem c9_amended (w : World) (folder : Folder) (src : File) (base : String)
    (hsvg : src.ext = ".svg") (hr : w.renderOk = true) (hf : w.failAt = none) :
    (createVariants w folder src base).1 = true ∧
    ∀ g ∈ (createVariants w folder src base).2.1.rootFiles,
      (g.stem == "_temp_" ++ base && g.ext == ".png") = false := by
  constructor
  · simp [createVariants, hsvg, hr, encodeSizes_fst w base (renderedPng src.content) hf]
  · intro g hg
    simp only [createVariants, hsvg, lowerStrSvg, beq_self_eq_true, if_true, hr,
      encodeSizes_fst w base (renderedPng src.content) hf] at hg
    simp only [removeKey, List.mem_filter] at hg
    have h2 := hg.2
    simp only [sameKey, Bool.not_and, Bool.not_eq_true', beq_eq_false_iff_ne, ne_eq,
      Bool.or_eq_true] at h2
    rcases h2 with h | h
    · simp [h]
    · simp [h]

/-- C9 witness: the amended cleanup theorem applied to a concrete
folder with every encode succeeding. -/
theorem c9_witness :
    (createVariants wAll800 ⟨"c9w", [⟨"foo", ".svg", "S"⟩], [], [], []⟩
        ⟨"foo", ".svg", "S"⟩ "foo").1 = true ∧
    ∀ g ∈ (createVariants wAll800 ⟨"c9w", [⟨"foo", ".svg", "S"⟩], [], [], []⟩
        ⟨"foo", ".svg", "S"⟩ "foo").2.1.rootFiles,
      (g.stem == "_temp_" ++ "foo" && g.ext == ".png") = false :=
  c9_amended wAll800 ⟨"c9w", [⟨"foo", ".svg", "S"⟩], [], [], []⟩
    ⟨"foo", ".svg", "S"⟩ "foo" rfl rfl rfl

/-- C7: a successful non-marker conversion of an unledgered folder
holding the pair foo.svg / foo.xml with an 800 x 800 master produces
exactly the fifteen variants foo_64 / foo_128 / foo_256 / foo_512 /
foo_1024 in each of png, jpg and ico (five sizes times three
formats), ledgers the folder and rewrites the ledger file. -/
theorem c7_matrix (w : World) (conv ledger : List String) (lw ops : Nat) (nm cs cx : String)
    (hc : nm ∉ conv) (hsz : checkSvgSize w cs = true)
    (hr : w.renderOk = true) (hf : w.failAt = none) (hL : w.ledgerOk = true) :
    processIconFolder w ⟨conv, ledger, lw, ops⟩
        ⟨nm, [⟨"foo", ".svg", cs⟩, ⟨"foo", ".xml", cx⟩], [], [], []⟩ =
      Except.ok (true, ⟨nm, [⟨"foo", ".svg", cs⟩, ⟨"foo", ".xml", cx⟩],
        [⟨"foo_64", ".png", encodedVariant ("png") 64 (renderedPng cs)⟩,
          ⟨"foo_128", ".png", encodedVariant ("png") 128 (renderedPng cs)⟩,
          ⟨"foo_256", ".png", encodedVariant ("png") 256 (renderedPng cs)⟩,
          ⟨"foo_512", ".png", encodedVariant ("png") 512 (renderedPng cs)⟩,
          ⟨"foo_1024", ".png", encodedVariant ("png") 1024 (renderedPng cs)⟩],
        [⟨"foo_64", ".jpg", encodedVariant ("jpg") 64 (renderedPng cs)⟩,
          ⟨"foo_128", ".jpg", encodedVariant ("jpg") 128 (renderedPng cs)⟩,
          ⟨"foo_256", ".jpg", encodedVariant ("jpg") 256 (renderedPng cs)⟩,
          ⟨"foo_512", ".jpg", encodedVariant ("jpg") 512 (renderedPng cs)⟩,
          ⟨"foo_1024", ".jpg", encodedVariant ("jpg") 1024 (renderedPng cs)⟩],
        [⟨"foo_64", ".ico", encodedVariant ("ico") 64 (renderedPng cs)⟩,
          ⟨"foo_128", ".ico", encodedVariant ("ico") 128 (renderedPng cs)⟩,
          ⟨"foo_256", ".ico", encodedVariant ("ico") 256 (renderedPng cs)⟩,
          ⟨"foo_512", ".ico", encodedVariant ("ico") 512 (renderedPng cs)⟩,
          ⟨"foo_1024", ".ico", encodedVariant ("ico") 1024 (renderedPng cs)⟩]⟩,
        ⟨insertName conv nm, sortStrings (insertName conv nm), lw + 1, ops + 17⟩) := by
  simp [processIconFolder, normalTail, lastWithExt, hc, hsz, hr, hL, createVariants, SIZES,
    encodeSizes, failsAt, hf, putFile, sameKey, removeKey, fileOnDisk, svgToXmlFile,
    saveConvertedList, insertName]
  refine ⟨?_, ?_, ?_⟩ <;> rfl

/-- C7 witness: the matrix theorem applied to a concrete unledgered
folder with an 800 x 800 master. -/
theorem c7_witness :
    processIconFolder wAll800 ⟨[], [], 0, 0⟩
        ⟨"d7", [⟨"foo", ".svg", "S"⟩, ⟨"foo", ".xml", "S"⟩], [], [], []⟩ =
      Except.ok (true, ⟨"d7", [⟨"foo", ".svg", "S"⟩, ⟨"foo", ".xml", "S"⟩],
        [⟨"foo_64", ".png", encodedVariant ("png") 64 (renderedPng ("S"))⟩,
          ⟨"foo_128", ".png", encodedVariant ("png") 128 (renderedPng ("S"))⟩,
          ⟨"foo_256", ".png", encodedVariant ("png") 256 (renderedPng ("S"))⟩,
          ⟨"foo_512", ".png", encodedVariant ("png") 512 (renderedPng ("S"))⟩,
          ⟨"foo_1024", ".png", encodedVariant ("png") 1024 (renderedPng ("S"))⟩],
        [⟨"foo_64", ".jpg", encodedVariant ("jpg") 64 (renderedPng ("S"))⟩,
          ⟨"foo_128", ".jpg", encodedVariant ("jpg") 128 (renderedPng ("S"))⟩,
          ⟨"foo_256", ".jpg", encodedVariant ("jpg") 256 (renderedPng ("S"))⟩,
          ⟨"foo_512", ".jpg", encodedVariant ("jpg") 512 (renderedPng ("S"))⟩,
          ⟨"foo_1024", ".jpg", encodedVariant ("jpg") 1024 (renderedPng ("S"))⟩],
        [⟨"foo_64", ".ico", encodedVariant ("ico") 64 (renderedPng ("S"))⟩,
          ⟨"foo_128", ".ico", encodedVariant ("ico") 128 (renderedPng ("S"))⟩,
          ⟨"foo_256", ".ico", encodedVariant ("ico") 256 (renderedPng ("S"))⟩,
          ⟨"foo_512", ".ico", encodedVariant ("ico") 512 (renderedPng ("S"))⟩,
          ⟨"foo_1024", ".ico", encodedVariant ("ico") 1024 (renderedPng ("S"))⟩]⟩,
        ⟨["d7"], ["d7"], 1, 17⟩) :=
  c7_matrix wAll800 [] [] 0 0 ("d7") ("S") ("S") (by decide) (by rfl) rfl rfl rfl
/-- The variant glob only inspects a file's name, never its content. -/
theorem matchesVariant_congr (base fmt : String) (g v : File)
    (h1 : g.stem = v.stem) (h2 : g.ext = v.ext) :
    matchesVariant base fmt g = matchesVariant base fmt v := by
  unfold matchesVariant nameOf
  rw [h1, h2]

/-- A file not matching the variant pattern cannot share a path with
one that does. -/
theorem sameKey_false_of_match_ne (base fmt : String) (g v : File)
    (hg : matchesVariant base fmt g = false) (hv : matchesVariant base fmt v = true) :
    sameKey g v = false := by
  by_cases h1 : g.stem = v.stem
  · by_cases h2 : g.ext = v.ext
    · rw [matchesVariant_congr base fmt g v h1 h2, hv] at hg
      exact absurd hg (by simp)
    · simp [sameKey, h2]
  · simp [sameKey, h1]

/-- Writing to a path held by no listed file appends. -/
theorem putFile_append (l : List File) (f : File)
    (h : ∀ g ∈ l, sameKey g f = false) :
    putFile l f = l ++ [f] := by
  unfold putFile
  have : l.filter (fun g => !sameKey g f) = l := by
    rw [List.filter_eq_self]
    intro g hg
    simp [h g hg]
  rw [this]

/-- Writing a batch of fresh, pairwise-distinct paths appends them in
order. -/
theorem putChain : ∀ (vs old : List File),
    (∀ g ∈ old, ∀ v ∈ vs, sameKey g v = false) →
    (vs.Pairwise fun u v => sameKey u v = false) →
    List.foldl putFile old vs = old ++ vs := by
  intro vs
  induction vs with
  | nil => intro old h1 h2; simp
  | cons v rest ih =>
    intro old h1 h2
    simp only [List.foldl_cons]
    rw [putFile_append old v (fun g hg => h1 g hg v (by simp))]
    rw [ih (old ++ [v]) ?_ ?_]
    · simp
    · intro g hg u hu
      rcases List.mem_append.mp hg with h | h
      · exact h1 g h u (by simp [hu])
      · rcases List.mem_singleton.mp h with rfl
        exact (List.pairwise_cons.mp h2).1 u hu
    · exact (List.pairwise_cons.mp h2).2

/-- Constructor for pairwise facts over a five-element list. -/
theorem pairwise5 {α : Type} (R : α → α → Prop) (a b c d e : α)
    (h1 : R a b) (h2 : R a c) (h3 : R a d) (h4 : R a e) (h5 : R b c) (h6 : R b d)
    (h7 : R b e) (h8 : R c d) (h9 : R c e) (h10 : R d e) :
    List.Pairwise R [a, b, c, d, e] := by
  refine List.Pairwise.cons ?_ (List.Pairwise.cons ?_ (List.Pairwise.cons ?_
    (List.Pairwise.cons ?_ (List.Pairwise.cons ?_ List.Pairwise.nil))))
  · intro v hv
    rcases List.mem_cons.mp hv with rfl | hv
    · exact h1
    rcases List.mem_cons.mp hv with rfl | hv
    · exact h2
    rcases List.mem_cons.mp hv with rfl | hv
    · exact h3
    rcases List.mem_cons.mp hv with rfl | hv
    · exact h4
    simp at hv
  · intro v hv
    rcases List.mem_cons.mp hv with rfl | hv
    · exact h5
    rcases List.mem_cons.mp hv with rfl | hv
    · exact h6
    rcases List.mem_cons.mp hv with rfl | hv
    · exact h7
    simp at hv
  · intro v hv
    rcases List.mem_cons.mp hv with rfl | hv
    · exact h8
    rcases List.mem_cons.mp hv with rfl | hv
    · exact h9
    simp at hv
  · intro v hv
    rcases List.mem_cons.mp hv with rfl | hv
    · exact h10
    simp at hv
  · intro v hv
    simp at hv

/-- C3: for every ledgered folder holding a .updatesvg marker, a vector
file and an XML mirror (same base name), a successful regeneration run
deletes the marker, replaces the vector file with a copy of the XML
mirror's prior content, deletes every prior variant of that base name
in each format directory while keeping every non-matching file, writes
the full fresh variant matrix, and leaves the in-memory set, the
on-disk ledger and the ledger-write counter untouched (so the folder
name stays in the ledger exactly as before, with no ledger write). -/
theorem c3_marker_consumption (w : World) (conv ledger : List String) (lw ops : Nat)
    (nm mstem cs cx : String) (png0 jpg0 ico0 : List File)
    (hc : nm ∈ conv) (hsz : checkSvgSize w cx = true) (hr : w.renderOk = true)
    (hf : w.failAt = none) :
    ∃ opsF, processIconFolder w ⟨conv, ledger, lw, ops⟩
        ⟨nm, [⟨mstem, ".updatesvg", ""⟩, ⟨"icon", ".svg", cs⟩, ⟨"icon", ".xml", cx⟩],
          png0, jpg0, ico0⟩ =
      Except.ok (true,
        ⟨nm, [⟨"icon", ".xml", cx⟩, ⟨"icon", ".svg", cx⟩],
          png0.filter (fun g => !matchesVariant ("icon") ("png") g) ++
            [⟨"icon_64", ".png", encodedVariant ("png") 64 (renderedPng cx)⟩,
              ⟨"icon_128", ".png", encodedVariant ("png") 128 (renderedPng cx)⟩,
              ⟨"icon_256", ".png", encodedVariant ("png") 256 (renderedPng cx)⟩,
              ⟨"icon_512", ".png", encodedVariant ("png") 512 (renderedPng cx)⟩,
              ⟨"icon_1024", ".png", encodedVariant ("png") 1024 (renderedPng cx)⟩],
          jpg0.filter (fun g => !matchesVariant ("icon") ("jpg") g) ++
            [⟨"icon_64", ".jpg", encodedVariant ("jpg") 64 (renderedPng cx)⟩,
              ⟨"icon_128", ".jpg", encodedVariant ("jpg") 128 (renderedPng cx)⟩,
              ⟨"icon_256", ".jpg", encodedVariant ("jpg") 256 (renderedPng cx)⟩,
              ⟨"icon_512", ".jpg", encodedVariant ("jpg") 512 (renderedPng cx)⟩,
              ⟨"icon_1024", ".jpg", encodedVariant ("jpg") 1024 (renderedPng cx)⟩],
          ico0.filter (fun g => !matchesVariant ("icon") ("ico") g) ++
            [⟨"icon_64", ".ico", encodedVariant ("ico") 64 (renderedPng cx)⟩,
              ⟨"icon_128", ".ico", encodedVariant ("ico") 128 (renderedPng cx)⟩,
              ⟨"icon_256", ".ico", encodedVariant ("ico") 256 (renderedPng cx)⟩,
              ⟨"icon_512", ".ico", encodedVariant ("ico") 512 (renderedPng cx)⟩,
              ⟨"icon_1024", ".ico", encodedVariant ("ico") 1024 (renderedPng cx)⟩]⟩,
        ⟨conv, ledger, lw, opsF⟩) := by
  have hold : ∀ fmt : String, ∀ l0 : List File,
      ∀ g ∈ l0.filter (fun f => !matchesVariant ("icon") fmt f),
      ∀ v : File, matchesVariant ("icon") fmt v = true → sameKey g v = false := by
    intro fmt l0 g hg v hv
    have hgm : matchesVariant ("icon") fmt g = false := by
      simpa using (List.mem_filter.mp hg).2
    exact sameKey_false_of_match_ne _ _ _ _ hgm hv
  have chainOf : ∀ (fmt ext : String) (l0 : List File)
      (c64 c128 c256 c512 c1024 : String),
      matchesVariant ("icon") fmt (⟨"icon_" ++ toString 64, ext, c64⟩ : File) = true →
      matchesVariant ("icon") fmt (⟨"icon_" ++ toString 128, ext, c128⟩ : File) = true →
      matchesVariant ("icon") fmt (⟨"icon_" ++ toString 256, ext, c256⟩ : File) = true →
      matchesVariant ("icon") fmt (⟨"icon_" ++ toString 512, ext, c512⟩ : File) = true →
      matchesVariant ("icon") fmt (⟨"icon_" ++ toString 1024, ext, c1024⟩ : File) = true →
      putFile (putFile (putFile (putFile (putFile
            (l0.filter (fun f => !matchesVariant ("icon") fmt f))
            ⟨"icon_" ++ toString 64, ext, c64⟩)
          ⟨"icon_" ++ toString 128, ext, c128⟩)
        ⟨"icon_" ++ toString 256, ext, c256⟩)
        ⟨"icon_" ++ toString 512, ext, c512⟩)
        ⟨"icon_" ++ toString 1024, ext, c1024⟩ =
      (l0.filter (fun f => !matchesVariant ("icon") fmt f)) ++
        [⟨"icon_" ++ toString 64, ext, c64⟩, ⟨"icon_" ++ toString 128, ext, c128⟩,
          ⟨"icon_" ++ toString 256, ext, c256⟩, ⟨"icon_" ++ toString 512, ext, c512⟩,
          ⟨"icon_" ++ toString 1024, ext, c1024⟩] := by
    intro fmt ext l0 c64 c128 c256 c512 c1024 m1 m2 m3 m4 m5
    have h := putChain
      [⟨"icon_" ++ toString 64, ext, c64⟩, ⟨"icon_" ++ toString 128, ext, c128⟩,
        ⟨"icon_" ++ toString 256, ext, c256⟩, ⟨"icon_" ++ toString 512, ext, c512⟩,
        ⟨"icon_" ++ toString 1024, ext, c1024⟩]
      (l0.filter (fun f => !matchesVariant ("icon") fmt f))
      ?_ ?_
    · simpa only [List.foldl_cons, List.foldl_nil] using h
    · intro g hg v hv
      rcases List.mem_cons.mp hv with rfl | hv
      · exact hold fmt l0 g hg _ m1
      rcases List.mem_cons.mp hv with rfl | hv
      · exact hold fmt l0 g hg _ m2
      rcases List.mem_cons.mp hv with rfl | hv
      · exact hold fmt l0 g hg _ m3
      rcases List.mem_cons.mp hv with rfl | hv
      · exact hold fmt l0 g hg _ m4
      rcases List.mem_cons.mp hv with rfl | hv
      · exact hold fmt l0 g hg _ m5
      simp at hv
    · exact pairwise5 _ _ _ _ _ _ rfl rfl rfl rfl rfl rfl rfl rfl rfl rfl
  have chainP := chainOf ("png") (".png") png0
    (encodedVariant ("png") 64 (renderedPng cx)) (encodedVariant ("png") 128 (renderedPng cx))
    (encodedVariant ("png") 256 (renderedPng cx)) (encodedVariant ("png") 512 (renderedPng cx))
    (encodedVariant ("png") 1024 (renderedPng cx)) rfl rfl rfl rfl rfl
  have chainJ := chainOf ("jpg") (".jpg") jpg0
    (encodedVariant ("jpg") 64 (renderedPng cx)) (encodedVariant ("jpg") 128 (renderedPng cx))
    (encodedVariant ("jpg") 256 (renderedPng cx)) (encodedVariant ("jpg") 512 (renderedPng cx))
    (encodedVariant ("jpg") 1024 (renderedPng cx)) rfl rfl rfl rfl rfl
  have chainI := chainOf ("ico") (".ico") ico0
    (encodedVariant ("ico") 64 (renderedPng cx)) (encodedVariant ("ico") 128 (renderedPng cx))
    (encodedVariant ("ico") 256 (renderedPng cx)) (encodedVariant ("ico") 512 (renderedPng cx))
    (encodedVariant ("ico") 1024 (renderedPng cx)) rfl rfl rfl rfl rfl
  have hput1 : putFile [(⟨"icon", ".xml", cx⟩ : File)] (⟨"icon", ".svg", cx⟩ : File) =
      [⟨"icon", ".xml", cx⟩, ⟨"icon", ".svg", cx⟩] := rfl
  have hput2 : putFile [(⟨"icon", ".xml", cx⟩ : File), ⟨"icon", ".svg", cx⟩]
      (⟨"_temp_icon", ".png", renderedPng cx⟩ : File) =
      [⟨"icon", ".xml", cx⟩, ⟨"icon", ".svg", cx⟩, ⟨"_temp_icon", ".png", renderedPng cx⟩] := rfl
  refine ⟨ops + (png0.length - (png0.filter (fun f => !matchesVariant ("icon") ("png") f)).length
      + (jpg0.length - (jpg0.filter (fun f => !matchesVariant ("icon") ("jpg") f)).length)
      + (ico0.length - (ico0.filter (fun f => !matchesVariant ("icon") ("ico") f)).length))
      + 2 + 1 + 17, ?_⟩
  simp [processIconFolder, handleUpdSvg, handleUpdXml, regenStep, normalTail, lastWithExt,
    deleteConvertedFiles, hc, hsz, hr, createVariants, SIZES, encodeSizes, failsAt, hf,
    fileOnDisk, sameKey, xmlToSvgFile, removeKey, hput1, hput2, chainP, chainJ, chainI]
  exact ⟨rfl, rfl, rfl, rfl, rfl⟩

/-- C3 witness: the marker-consumption theorem applied to a concrete
ledgered folder with empty variant directories. -/
theorem c3_witness :
    ∃ opsF, processIconFolder wAll800 ⟨["d3"], ["d3"], 0, 0⟩
        ⟨"d3", [⟨"u", ".updatesvg", ""⟩, ⟨"icon", ".svg", "old"⟩, ⟨"icon", ".xml", "mirror"⟩],
          [], [], []⟩ =
      Except.ok (true,
        ⟨"d3", [⟨"icon", ".xml", "mirror"⟩, ⟨"icon", ".svg", "mirror"⟩],
          List.filter (fun g => !matchesVariant ("icon") ("png") g) [] ++
            [⟨"icon_64", ".png", encodedVariant ("png") 64 (renderedPng ("mirror"))⟩,
              ⟨"icon_128", ".png", encodedVariant ("png") 128 (renderedPng ("mirror"))⟩,
              ⟨"icon_256", ".png", encodedVariant ("png") 256 (renderedPng ("mirror"))⟩,
              ⟨"icon_512", ".png", encodedVariant ("png") 512 (renderedPng ("mirror"))⟩,
              ⟨"icon_1024", ".png", encodedVariant ("png") 1024 (renderedPng ("mirror"))⟩],
          List.filter (fun g => !matchesVariant ("icon") ("jpg") g) [] ++
            [⟨"icon_64", ".jpg", encodedVariant ("jpg") 64 (renderedPng ("mirror"))⟩,
              ⟨"icon_128", ".jpg", encodedVariant ("jpg") 128 (renderedPng ("mirror"))⟩,
              ⟨"icon_256", ".jpg", encodedVariant ("jpg") 256 (renderedPng ("mirror"))⟩,
              ⟨"icon_512", ".jpg", encodedVariant ("jpg") 512 (renderedPng ("mirror"))⟩,
              ⟨"icon_1024", ".jpg", encodedVariant ("jpg") 1024 (renderedPng ("mirror"))⟩],
          List.filter (fun g => !matchesVariant ("icon") ("ico") g) [] ++
            [⟨"icon_64", ".ico", encodedVariant ("ico") 64 (renderedPng ("mirror"))⟩,
              ⟨"icon_128", ".ico", encodedVariant ("ico") 128 (renderedPng ("mirror"))⟩,
              ⟨"icon_256", ".ico", encodedVariant ("ico") 256 (renderedPng ("mirror"))⟩,
              ⟨"icon_512", ".ico", encodedVariant ("ico") 512 (renderedPng ("mirror"))⟩,
              ⟨"icon_1024", ".ico", encodedVariant ("ico") 1024 (renderedPng ("mirror"))⟩]⟩,
        ⟨["d3"], ["d3"], 0, opsF⟩) :=
  c3_marker_consumption wAll800 ["d3"] ["d3"] 0 0 ("d3") ("u") ("old") ("mirror") [] [] []
    (by decide) (by rfl) rfl rfl

/-- C2 counterexample: with the ledger file unwritable, a folder whose
variant generation succeeds makes the whole run raise: runAll returns
an escaped exception instead of completing the pass and reporting the
folder as failed in an aggregate tally. -/
theorem c2_counterexample :
    isErr (runAll wLedgerDown ⟨[], [], 0, 0⟩
      [⟨"a", [⟨"icon", ".svg", "S"⟩], [], [], []⟩,
        ⟨"b", [⟨"bar", ".svg", "T"⟩], [], [], []⟩]) = true := by
  rfl

/-- C2 amended: when the ledger write fails after a folder's variants
were generated successfully, the exception escapes
process_icon_folder and IconConverter.run alike: the run aborts at
that folder (no aggregate pass result), and the remaining folders are
left untouched, never processed. -/
theorem c2_amended (w : World) (st : PState) (cs : String) (fb : Folder)
    (hca : "a" ∉ st.conv) (hsz : checkSvgSize w cs = true) (hr : w.renderOk = true)
    (hf : w.failAt = none) (hL : w.ledgerOk = false) (hb : fb.name = "b") :
    isErr (runAll w st [⟨"a", [⟨"icon", ".svg", cs⟩], [], [], []⟩, fb]) = true ∧
    (runFolders (runAll w st [⟨"a", [⟨"icon", ".svg", cs⟩], [], [], []⟩, fb])).tail = [fb] := by
  have hlt : strLt ("b") ("a") = false := by decide
  simp [runAll, sortFolders, insertFolder, hb, hlt, runLoop, processIconFolder, normalTail,
    lastWithExt, hca, hsz, hr, hL, hf, createVariants, SIZES, encodeSizes, failsAt,
    saveConvertedList, fileOnDisk, sameKey, svgToXmlFile, putFile, isErr, runFolders]

/-- C2 witness: the abort theorem applied to a concrete two-folder run
with an unwritable ledger. -/
theorem c2_witness :
    isErr (runAll wLedgerDown ⟨[], [], 0, 0⟩
      [⟨"a", [⟨"icon", ".svg", "S"⟩], [], [], []⟩,
        ⟨"b", [⟨"bar", ".svg", "T"⟩], [], [], []⟩]) = true ∧
    (runFolders (runAll wLedgerDown ⟨[], [], 0, 0⟩
      [⟨"a", [⟨"icon", ".svg", "S"⟩], [], [], []⟩,
        ⟨"b", [⟨"bar", ".svg", "T"⟩], [], [], []⟩])).tail =
      [⟨"b", [⟨"bar", ".svg", "T"⟩], [], [], []⟩] :=
  c2_amended wLedgerDown ⟨[], [], 0, 0⟩ ("S") ⟨"b", [⟨"bar", ".svg", "T"⟩], [], [], []⟩
    (by decide) (by rfl) rfl rfl rfl rfl

/-- C8 counterexample: a ledgered folder carrying BOTH markers but
neither source file is not processed at all: both marker branches are
silently skipped (each guard also requires its own source file),
nothing is validated or deleted, both marker files stay on disk, and
the folder is reported successful instead of each marker handling
independently validating and failing. -/
theorem c8_counterexample :
    processIconFolder wAll800 ⟨["d8"], ["d8"], 0, 0⟩
        ⟨"d8", [⟨"m1", ".updatesvg", ""⟩, ⟨"m2", ".updatexml", ""⟩], [], [], []⟩ =
      Except.ok (true, ⟨"d8", [⟨"m1", ".updatesvg", ""⟩, ⟨"m2", ".updatexml", ""⟩], [], [], []⟩,
        ⟨["d8"], ["d8"], 0, 0⟩) := by
  rfl

/-- C8 amended: for every ledgered folder carrying both markers and at
least one of the two source files, process_icon_folder is
observationally identical to the sequential-independent handling
processIconFolderIndep, which runs the .updatesvg branch first and
still attempts the .updatexml branch after a failure of the first:
the early returns of the real code are unobservable in folder state
and result on these folders. -/
theorem c8_amended (w : World) (st : PState) (hasSvg hasXml : Bool) (cs cx : String)
    (png0 jpg0 ico0 : List File) (nm : String) (_hc : nm ∈ st.conv)
    (hs : (hasSvg || hasXml) = true) :
    processIconFolder w st ⟨nm,
        [⟨"m1", ".updatesvg", ""⟩, ⟨"m2", ".updatexml", ""⟩] ++
          (if hasSvg then [⟨"icon", ".svg", cs⟩] else []) ++
          (if hasXml then [⟨"icon", ".xml", cx⟩] else []), png0, jpg0, ico0⟩ =
      processIconFolderIndep w st ⟨nm,
        [⟨"m1", ".updatesvg", ""⟩, ⟨"m2", ".updatexml", ""⟩] ++
          (if hasSvg then [⟨"icon", ".svg", cs⟩] else []) ++
          (if hasXml then [⟨"icon", ".xml", cx⟩] else []), png0, jpg0, ico0⟩ := by
  cases hasSvg <;> cases hasXml
  · simp at hs
  · rfl
  · rfl
  · rfl

/-- C8 witness: the equivalence applied to a concrete ledgered folder
carrying both markers and both source files. -/
theorem c8_witness :
    processIconFolder wAll800 ⟨["d8"], ["d8"], 0, 0⟩
        ⟨"d8", [⟨"m1", ".updatesvg", ""⟩, ⟨"m2", ".updatexml", ""⟩,
          ⟨"icon", ".svg", "S"⟩, ⟨"icon", ".xml", "X"⟩], [], [], []⟩ =
      processIconFolderIndep wAll800 ⟨["d8"], ["d8"], 0, 0⟩
        ⟨"d8", [⟨"m1", ".updatesvg", ""⟩, ⟨"m2", ".updatexml", ""⟩,
          ⟨"icon", ".svg", "S"⟩, ⟨"icon", ".xml", "X"⟩], [], [], []⟩ :=
  c8_amended wAll800 ⟨["d8"], ["d8"], 0, 0⟩ true true ("S") ("X") [] [] [] ("d8")
    (by decide) rfl
/-- Deleting one path keeps every file with a different path. -/
theorem mem_removeKey_of (l : List File) (t g : File) (hg : g ∈ l)
    (hk : sameKey g t = false) : g ∈ removeKey l t :=
  List.mem_filter.mpr ⟨hg, by simp [hk]⟩

/-- Deleting never adds files. -/
theorem removeKey_subset (l : List File) (t g : File) (hg : g ∈ removeKey l t) : g ∈ l :=
  (List.mem_filter.mp hg).1

/-- A file present after a write was present before or is the written
file. -/
theorem mem_putFile_cases (l : List File) (f g : File) (hg : g ∈ putFile l f) :
    g ∈ l ∨ g = f := by
  unfold putFile at hg
  rcases List.mem_append.mp hg with h | h
  · exact Or.inl (List.mem_filter.mp h).1
  · exact Or.inr (List.mem_singleton.mp h)

/-- A write keeps every file at a different path. -/
theorem mem_putFile_of (l : List File) (f g : File) (hg : g ∈ l)
    (hk : sameKey g f = false) : g ∈ putFile l f := by
  unfold putFile
  exact List.mem_append.mpr (Or.inl (List.mem_filter.mpr ⟨hg, by simp [hk]⟩))

/-- C10: the marker-driven invalidation branches delete only what the
claim allows.  For the .updatesvg branch (and symmetrically the
.updatexml branch), on every exit: each format directory keeps every
file not matching base_name ++ "_*." ++ its own format (in particular
files of a different base name and files whose extension is not the
directory's format) and gains nothing; in the folder root every file
other than the scanned source file and the scanned marker file
survives untouched, and the only possible addition is the regenerated
counterpart at the base path. -/
theorem c10_frame (st stB : PState) (folder folderB : Folder) (mu sf muB xfB : File)
    (xml0 svg1 : Option File) (hsf : sf.ext = ".svg") (hxf : xfB.ext = ".xml")
    (hmirror : ∀ xf, xml0 = some xf → xf.stem = sf.stem)
    (hmirrorB : ∀ sg, svg1 = some sg → sg.stem = xfB.stem) :
    ((∀ g ∈ folder.pngFiles, matchesVariant sf.stem ("png") g = false →
      g ∈ (folderAfterUpdSvg (handleUpdSvg st folder (some mu) (some sf) xml0)).pngFiles) ∧
    (∀ g ∈ folder.jpgFiles, matchesVariant sf.stem ("jpg") g = false →
      g ∈ (folderAfterUpdSvg (handleUpdSvg st folder (some mu) (some sf) xml0)).jpgFiles) ∧
    (∀ g ∈ folder.icoFiles, matchesVariant sf.stem ("ico") g = false →
      g ∈ (folderAfterUpdSvg (handleUpdSvg st folder (some mu) (some sf) xml0)).icoFiles) ∧
    (∀ g ∈ (folderAfterUpdSvg (handleUpdSvg st folder (some mu) (some sf) xml0)).pngFiles,
      g ∈ folder.pngFiles) ∧
    (∀ g ∈ (folderAfterUpdSvg (handleUpdSvg st folder (some mu) (some sf) xml0)).jpgFiles,
      g ∈ folder.jpgFiles) ∧
    (∀ g ∈ (folderAfterUpdSvg (handleUpdSvg st folder (some mu) (some sf) xml0)).icoFiles,
      g ∈ folder.icoFiles) ∧
    (∀ g ∈ folder.rootFiles, sameKey g sf = false → sameKey g mu = false →
      g ∈ (folderAfterUpdSvg (handleUpdSvg st folder (some mu) (some sf) xml0)).rootFiles) ∧
    (∀ g ∈ (folderAfterUpdSvg (handleUpdSvg st folder (some mu) (some sf) xml0)).rootFiles,
      g ∈ folder.rootFiles ∨ (g.stem = sf.stem ∧ g.ext = ".svg"))) ∧
    ((∀ g ∈ folderB.pngFiles, matchesVariant xfB.stem ("png") g = false →
      g ∈ (folderAfterUpdXml (handleUpdXml stB folderB (some muB) (some xfB) svg1)).pngFiles) ∧
    (∀ g ∈ folderB.jpgFiles, matchesVariant xfB.stem ("jpg") g = false →
      g ∈ (folderAfterUpdXml (handleUpdXml stB folderB (some muB) (some xfB) svg1)).jpgFiles) ∧
    (∀ g ∈ folderB.icoFiles, matchesVariant xfB.stem ("ico") g = false →
      g ∈ (folderAfterUpdXml (handleUpdXml stB folderB (some muB) (some xfB) svg1)).icoFiles) ∧
    (∀ g ∈ (folderAfterUpdXml (handleUpdXml stB folderB (some muB) (some xfB) svg1)).pngFiles,
      g ∈ folderB.pngFiles) ∧
    (∀ g ∈ (folderAfterUpdXml (handleUpdXml stB folderB (some muB) (some xfB) svg1)).jpgFiles,
      g ∈ folderB.jpgFiles) ∧
    (∀ g ∈ (folderAfterUpdXml (handleUpdXml stB folderB (some muB) (some xfB) svg1)).icoFiles,
      g ∈ folderB.icoFiles) ∧
    (∀ g ∈ folderB.rootFiles, sameKey g xfB = false → sameKey g muB = false →
      g ∈ (folderAfterUpdXml (handleUpdXml stB folderB (some muB) (some xfB) svg1)).rootFiles) ∧
    (∀ g ∈ (folderAfterUpdXml (handleUpdXml stB folderB (some muB) (some xfB) svg1)).rootFiles,
      g ∈ folderB.rootFiles ∨ (g.stem = xfB.stem ∧ g.ext = ".xml"))) := by
  constructor
  · cases xml0 with
    | none =>
      simp only [handleUpdSvg, folderAfterUpdSvg, deleteConvertedFiles]
      refine ⟨?_, ?_, ?_, ?_, ?_, ?_, ?_, ?_⟩
      · intro g hg hm
        exact List.mem_filter.mpr ⟨hg, by simp [hm]⟩
      · intro g hg hm
        exact List.mem_filter.mpr ⟨hg, by simp [hm]⟩
      · intro g hg hm
        exact List.mem_filter.mpr ⟨hg, by simp [hm]⟩
      · intro g hg
        exact (List.mem_filter.mp hg).1
      · intro g hg
        exact (List.mem_filter.mp hg).1
      · intro g hg
        exact (List.mem_filter.mp hg).1
      · intro g hg h1 h2
        exact mem_removeKey_of _ _ _ (mem_removeKey_of _ _ _ hg h1) h2
      · intro g hg
        exact Or.inl (removeKey_subset _ _ _ (removeKey_subset _ _ _ hg))
    | some xf =>
      have hstem := hmirror xf rfl
      unfold handleUpdSvg
      dsimp only [deleteConvertedFiles]
      cases hdisk : fileOnDisk (removeKey (removeKey folder.rootFiles sf) mu) xf
      case true =>
        simp only [hdisk, if_true, folderAfterUpdSvg]
        refine ⟨?_, ?_, ?_, ?_, ?_, ?_, ?_, ?_⟩
        · intro g hg hm
          exact List.mem_filter.mpr ⟨hg, by simp [hm]⟩
        · intro g hg hm
          exact List.mem_filter.mpr ⟨hg, by simp [hm]⟩
        · intro g hg hm
          exact List.mem_filter.mpr ⟨hg, by simp [hm]⟩
        · intro g hg
          exact (List.mem_filter.mp hg).1
        · intro g hg
          exact (List.mem_filter.mp hg).1
        · intro g hg
          exact (List.mem_filter.mp hg).1
        · intro g hg h1 h2
          apply mem_putFile_of
          · exact mem_removeKey_of _ _ _ (mem_removeKey_of _ _ _ hg h1) h2
          · unfold xmlToSvgFile sameKey
            simp only [hstem]
            unfold sameKey at h1
            rw [hsf] at h1
            simpa using h1
        · intro g hg
          rcases mem_putFile_cases _ _ _ hg with h | h
          · exact Or.inl (removeKey_subset _ _ _ (removeKey_subset _ _ _ h))
          · subst h
            exact Or.inr ⟨hstem, rfl⟩
      case false =>
        simp only [hdisk, Bool.false_eq_true, if_false, folderAfterUpdSvg]
        refine ⟨?_, ?_, ?_, ?_, ?_, ?_, ?_, ?_⟩
        · intro g hg hm
          exact List.mem_filter.mpr ⟨hg, by simp [hm]⟩
        · intro g hg hm
          exact List.mem_filter.mpr ⟨hg, by simp [hm]⟩
        · intro g hg hm
          exact List.mem_filter.mpr ⟨hg, by simp [hm]⟩
        · intro g hg
          exact (List.mem_filter.mp hg).1
        · intro g hg
          exact (List.mem_filter.mp hg).1
        · intro g hg
          exact (List.mem_filter.mp hg).1
        · intro g hg h1 h2
          exact mem_removeKey_of _ _ _ (mem_removeKey_of _ _ _ hg h1) h2
        · intro g hg
          exact Or.inl (removeKey_subset _ _ _ (removeKey_subset _ _ _ hg))
  · cases svg1 with
    | none =>
      simp only [handleUpdXml, folderAfterUpdXml, deleteConvertedFiles]
      refine ⟨?_, ?_, ?_, ?_, ?_, ?_, ?_, ?_⟩
      · intro g hg hm
        exact List.mem_filter.mpr ⟨hg, by simp [hm]⟩
      · intro g hg hm
        exact List.mem_filter.mpr ⟨hg, by simp [hm]⟩
      · intro g hg hm
        exact List.mem_filter.mpr ⟨hg, by simp [hm]⟩
      · intro g hg
        exact (List.mem_filter.mp hg).1
      · intro g hg
        exact (List.mem_filter.mp hg).1
      · intro g hg
        exact (List.mem_filter.mp hg).1
      · intro g hg h1 h2
        exact mem_removeKey_of _ _ _ (mem_removeKey_of _ _ _ hg h1) h2
      · intro g hg
        exact Or.inl (removeKey_subset _ _ _ (removeKey_subset _ _ _ hg))
    | some sg =>
      have hstem := hmirrorB sg rfl
      unfold handleUpdXml
      dsimp only [deleteConvertedFiles]
      cases hdisk : fileOnDisk (removeKey (removeKey folderB.rootFiles xfB) muB) sg
      case true =>
        simp only [hdisk, if_true, folderAfterUpdXml]
        refine ⟨?_, ?_, ?_, ?_, ?_, ?_, ?_, ?_⟩
        · intro g hg hm
          exact List.mem_filter.mpr ⟨hg, by simp [hm]⟩
        · intro g hg hm
          exact List.mem_filter.mpr ⟨hg, by simp [hm]⟩
        · intro g hg hm
          exact List.mem_filter.mpr ⟨hg, by simp [hm]⟩
        · intro g hg
          exact (List.mem_filter.mp hg).1
        · intro g hg
          exact (List.mem_filter.mp hg).1
        · intro g hg
          exact (List.mem_filter.mp hg).1
        · intro g hg h1 h2
          apply mem_putFile_of
          · exact mem_removeKey_of _ _ _ (mem_removeKey_of _ _ _ hg h1) h2
          · unfold svgToXmlFile sameKey
            simp only [hstem]
            unfold sameKey at h1
            rw [hxf] at h1
            simpa using h1
        · intro g hg
          rcases mem_putFile_cases _ _ _ hg with h | h
          · exact Or.inl (removeKey_subset _ _ _ (removeKey_subset _ _ _ h))
          · subst h
            exact Or.inr ⟨hstem, rfl⟩
      case false =>
        simp only [hdisk, Bool.false_eq_true, if_false, folderAfterUpdXml]
        refine ⟨?_, ?_, ?_, ?_, ?_, ?_, ?_, ?_⟩
        · intro g hg hm
          exact List.mem_filter.mpr ⟨hg, by simp [hm]⟩
        · intro g hg hm
          exact List.mem_filter.mpr ⟨hg, by simp [hm]⟩
        · intro g hg hm
          exact List.mem_filter.mpr ⟨hg, by simp [hm]⟩
        · intro g hg
          exact (List.mem_filter.mp hg).1
        · intro g hg
          exact (List.mem_filter.mp hg).1
        · intro g hg
          exact (List.mem_filter.mp hg).1
        · intro g hg h1 h2
          exact mem_removeKey_of _ _ _ (mem_removeKey_of _ _ _ hg h1) h2
        · intro g hg
          exact Or.inl (removeKey_subset _ _ _ (removeKey_subset _ _ _ hg))

/-- C10 witness: the frame theorem's png clause applied to a concrete
.updatesvg invalidation, showing the unrelated png file survives. -/
theorem c10_witness :
    (⟨"keep", ".png", "k"⟩ : File) ∈
      (folderAfterUpdSvg (handleUpdSvg ⟨["x"], ["x"], 0, 0⟩
        ⟨"fx", [⟨"a", ".svg", "S"⟩, ⟨"m", ".updatesvg", ""⟩],
          [⟨"a_64", ".png", "old"⟩, ⟨"keep", ".png", "k"⟩], [], []⟩
        (some ⟨"m", ".updatesvg", ""⟩) (some ⟨"a", ".svg", "S"⟩)
        (some ⟨"a", ".xml", "X"⟩))).pngFiles :=
  (c10_frame ⟨["x"], ["x"], 0, 0⟩ ⟨["x"], ["x"], 0, 0⟩
    ⟨"fx", [⟨"a", ".svg", "S"⟩, ⟨"m", ".updatesvg", ""⟩],
      [⟨"a_64", ".png", "old"⟩, ⟨"keep", ".png", "k"⟩], [], []⟩
    ⟨"fx", [], [], [], []⟩
    ⟨"m", ".updatesvg", ""⟩ ⟨"a", ".svg", "S"⟩ ⟨"n", ".updatexml", ""⟩ ⟨"a", ".xml", "X"⟩
    (some ⟨"a", ".xml", "X"⟩) none rfl rfl
    (by intro xf h; cases h; rfl) (by intro sg h; cases h)).1.1
    ⟨"keep", ".png", "k"⟩ (by decide) (by rfl)
